import Mathlib

/-!
Shallow embedding of the request pipeline of the LinguaLink translation platform,
persistence adapter and HTTP route handlers, together with proofs of the
behavioural properties stated about them.

The embedding mirrors the TypeScript sources:
* `src/lib/translation.ts` — `getOpenAIClient`, `translateText`,
  `detectLanguage` (the revision that carries the 5000-character check and
  the `sk-` key-format validation), and the Cosmic adapter functions
  `getLanguages`, `getTranslationHistory`, `deleteTranslation`.
* `src/lib/utils.ts` — `validateTranslationInput`.
* `src/app/api/translate/route.ts` — the `POST` handler and both revisions
  of the `GET` health-check handler (`GETtranslateBasic` for the handler that
  always reports `status: "ok"`, `GETtranslateExtended` for the handler that
  reports `status: "error"` on a missing or malformed key).
* `src/app/api/languages/route.ts` and the history route — `GETlanguages`,
  `GEThistory`, `DELETEhistory`.
* `src/app/page.tsx` — the client-side hardcoded language fallback list.

External effects are made explicit: the process environment becomes an `Env`
value, each chat-completion call the code would issue is resolved by a
`ProviderOutcome` argument, and every embedded function additionally returns
the number of provider requests it issued.  The remote object store becomes a
list of records; following the Cosmic REST semantics the code is written
against, a find with no matching objects and a delete of a nonexistent object
reject with HTTP status 404.
-/

namespace LinguaLink

/-- Process environment as read by the translate pipeline: the optional
`OPENAI_API_KEY` value. -/
structure Env where
  apiKey : Option String
deriving DecidableEq

/-- Outcome of one chat-completion request to the external provider: either a
response whose `choices[0].message.content` is the given optional string, or a
thrown API error carrying an optional HTTP status, an optional error code
string, and a message. -/
inductive ProviderOutcome where
  | reply (content : Option String)
  | fail (status : Option Nat) (code : Option String) (msg : String)
deriving DecidableEq

/-- A thrown JavaScript error as inspected by the catch blocks: optional
`status`, optional `code`, and `message`. -/
structure JsError where
  status : Option Nat
  code : Option String
  message : String
deriving DecidableEq

/-- JavaScript `String.prototype.trim` on a character list: drop whitespace
from both ends. -/
def jsTrimList (l : List Char) : List Char :=
  ((l.dropWhile Char.isWhitespace).reverse.dropWhile Char.isWhitespace).reverse

/-- JavaScript `String.prototype.trim`. -/
def jsTrim (s : String) : String :=
  ⟨jsTrimList s.data⟩

/-- JavaScript `String.prototype.includes`: contiguous-substring test. -/
def strIncludes (s pattern : String) : Bool :=
  decide (pattern.data <:+: s.data)

/-- JavaScript `String.prototype.startsWith`. -/
def jsStartsWith (s pattern : String) : Bool :=
  decide (pattern.data <+: s.data)

/-- JavaScript `String.prototype.includes` for a single character. -/
def jsContainsChar (s : String) (c : Char) : Bool :=
  s.data.contains c

/-- `getOpenAIClient` from `src/lib/translation.ts`: throws when
`OPENAI_API_KEY` is absent, throws when it does not start with `sk-`,
otherwise yields a client (modelled as `Unit`). -/
def getOpenAIClient (env : Env) : Except JsError Unit :=
  match env.apiKey with
  | none => .error ⟨none, none, "OPENAI_API_KEY environment variable is required. Please add your OpenAI API key to your environment variables."⟩
  | some k =>
      if jsStartsWith k "sk-" then .ok ()
      else .error ⟨none, none, "Invalid OpenAI API key format. API key should start with \"sk-\"."⟩

/-- The `TranslationResponse` shape returned by `translateText`. -/
structure TranslationResponse where
  translatedText : String
  sourceLanguage : String
  targetLanguage : String
  confidence : ℚ
  alternatives : List String
deriving DecidableEq

/-- The catch block of `translateText`: maps a thrown error to the
user-facing message that is rethrown. -/
def mapTranslateError (e : JsError) : String :=
  if strIncludes e.message "OPENAI_API_KEY" then
    "OpenAI API key is missing or invalid. Please check your environment variables."
  else if e.status = some 401 then
    "Invalid OpenAI API key. Please verify your API key is correct and active."
  else if e.status = some 429 then
    "OpenAI API rate limit exceeded. Please wait a moment and try again."
  else if e.status = some 503 ∨ e.status = some 502 then
    "OpenAI service is temporarily unavailable. Please try again in a moment."
  else if e.code = some "ECONNABORTED" ∨ strIncludes e.message "timeout" then
    "Translation request timed out. Please try again with shorter text."
  else if e.code = some "ENOTFOUND" ∨ strIncludes e.message "network" then
    "Network error. Please check your internet connection and try again."
  else if e.message ≠ "" then e.message
  else "Translation failed. Please try again."

/-- The try block of `translateText` (`src/lib/translation.ts`): input
validation, the source-equals-target short circuit, the 5000-character limit,
client construction, and the single chat-completion request.  The second
component counts provider requests issued. -/
def translateTextTry (env : Env) (provider : ProviderOutcome)
    (text sourceLanguage targetLanguage : String) :
    Except JsError TranslationResponse × Nat :=
  if text = "" ∨ (jsTrim text).length = 0 then
    (.error ⟨none, none, "Text to translate cannot be empty"⟩, 0)
  else if sourceLanguage = "" ∨ targetLanguage = "" then
    (.error ⟨none, none, "Source and target languages are required"⟩, 0)
  else if sourceLanguage = targetLanguage then
    (.ok ⟨text, sourceLanguage, targetLanguage, 1, []⟩, 0)
  else if text.length > 5000 then
    (.error ⟨none, none, "Text is too long. Please limit to 5000 characters."⟩, 0)
  else
    match getOpenAIClient env with
    | .error e => (.error e, 0)
    | .ok _ =>
        match provider with
        | .fail st cd m => (.error ⟨st, cd, m⟩, 1)
        | .reply content =>
            if jsTrim (content.getD "") = "" then
              (.error ⟨none, none, "No translation received from OpenAI"⟩, 1)
            else
              (.ok ⟨jsTrim (content.getD ""), sourceLanguage, targetLanguage, 95/100, []⟩, 1)

/-- `translateText` from `src/lib/translation.ts`: the try block with its
catch block applied to any thrown error. -/
def translateText (env : Env) (provider : ProviderOutcome)
    (text sourceLanguage targetLanguage : String) :
    Except String TranslationResponse × Nat :=
  match translateTextTry env provider text sourceLanguage targetLanguage with
  | (.ok r, n) => (.ok r, n)
  | (.error e, n) => (.error (mapTranslateError e), n)

/-- `detectLanguage` from `src/lib/translation.ts`: returns `"Unknown"` for
input shorter than 3 trimmed characters, on any thrown error (missing or
malformed key, provider failure), and for provider replies that fail the
response validation (empty, 50 characters or longer, or containing a
newline); otherwise the trimmed reply.  It never throws. -/
def detectLanguage (env : Env) (provider : ProviderOutcome) (text : String) :
    String × Nat :=
  if text = "" ∨ (jsTrim text).length < 3 then ("Unknown", 0)
  else
    match getOpenAIClient env with
    | .error _ => ("Unknown", 0)
    | .ok _ =>
        match provider with
        | .fail _ _ _ => ("Unknown", 1)
        | .reply none => ("Unknown", 1)
        | .reply (some c) =>
            if jsTrim c ≠ "" ∧ (jsTrim c).length < 50 ∧ ¬ jsContainsChar (jsTrim c) '\n' then
              (jsTrim c, 1)
            else ("Unknown", 1)

/-- Result shape of `validateTranslationInput` in `src/lib/utils.ts`. -/
structure ValidationResult where
  isValid : Bool
  error : Option String
deriving DecidableEq

/-- `validateTranslationInput` from `src/lib/utils.ts`. -/
def validateTranslationInput (text : String) : ValidationResult :=
  if text = "" ∨ (jsTrim text).length = 0 then
    ⟨false, some "Please enter text to translate"⟩
  else if text.length > 5000 then
    ⟨false, some "Text must be less than 5000 characters"⟩
  else
    ⟨true, none⟩

/-- Parsed body of a `POST /translate` request (`text` is the string field of
the JSON body, empty when the field is falsy). -/
structure TranslateRequest where
  text : String
  sourceLanguage : String
  targetLanguage : String
  autoDetect : Bool
deriving DecidableEq

/-- JSON body of a `POST /translate` response: either a failure body with an
`error` message and an optional machine-readable `code`, or a success body
with the translation fields and the optional `detectedLanguage`. -/
inductive TranslateBody where
  | failure (error : String) (code : Option String)
  | done (translatedText : String) (sourceLanguage : String)
      (targetLanguage : String) (confidence : ℚ) (alternatives : List String)
      (detectedLanguage : Option String)
deriving DecidableEq

/-- An HTTP response from the translate endpoint. -/
structure HttpResponse where
  status : Nat
  body : TranslateBody
deriving DecidableEq

/-- The auto-detect step of the `POST` handler
(`src/app/api/translate/route.ts`): when `autoDetect` is set and the text is
longer than 10 characters, run `detectLanguage`; keep a truthy result other
than `"Unknown"`, otherwise fall back to the caller-supplied source language.
The second component counts provider requests issued by detection. -/
def actualSourceLang (env : Env) (pDetect : ProviderOutcome)
    (req : TranslateRequest) : String × Nat :=
  if req.autoDetect = true ∧ req.text.length > 10 then
    if (detectLanguage env pDetect req.text).1 ≠ ""
        ∧ (detectLanguage env pDetect req.text).1 ≠ "Unknown" then
      ((detectLanguage env pDetect req.text).1,
        (detectLanguage env pDetect req.text).2)
    else (req.sourceLanguage, (detectLanguage env pDetect req.text).2)
  else (req.sourceLanguage, 0)

/-- The translation step of the `POST` handler, after the guards: translate
with the already-resolved actual source language `a` (the detection call
count rides along in `a.2`); a translation error becomes a 500 response with
code `TRANSLATION_ERROR`, a success the 200 response whose `sourceLanguage`
is the actual source and whose `detectedLanguage` is set exactly when the
actual source differs from the caller-supplied one. -/
def POSTwithSource (env : Env) (pTranslate : ProviderOutcome)
    (req : TranslateRequest) (a : String × Nat) : HttpResponse × Nat :=
  match translateText env pTranslate req.text a.1 req.targetLanguage with
  | (.ok r, n) =>
      (⟨200, .done r.translatedText a.1 r.targetLanguage r.confidence
        r.alternatives
        (if a.1 ≠ req.sourceLanguage then some a.1 else none)⟩, a.2 + n)
  | (.error m, n) =>
      (⟨500, .failure m (some "TRANSLATION_ERROR")⟩, a.2 + n)

/-- The `POST` handler of `src/app/api/translate/route.ts`: guard on a falsy
`text` field, validate the text, require both language names, require the
API key, optionally auto-detect, then translate.  `pDetect` resolves the
detection request and `pTranslate` the translation request; the second
component counts provider requests issued. -/
def POSTtranslate (env : Env) (pDetect pTranslate : ProviderOutcome)
    (req : TranslateRequest) : HttpResponse × Nat :=
  if req.text = "" then
    (⟨400, .failure "Text is required and must be a string" none⟩, 0)
  else if (validateTranslationInput req.text).isValid = false then
    (⟨400, .failure ((validateTranslationInput req.text).error.getD "") none⟩, 0)
  else if req.sourceLanguage = "" ∨ req.targetLanguage = "" then
    (⟨400, .failure "Source and target languages are required" none⟩, 0)
  else if env.apiKey = none then
    (⟨500, .failure "Translation service is not configured. Please set up the OpenAI API key." (some "MISSING_API_KEY")⟩, 0)
  else
    POSTwithSource env pTranslate req (actualSourceLang env pDetect req)

/-- Body of a `GET /translate` health-check response. -/
structure StatusBody where
  status : String
  configured : Bool
  message : String
deriving DecidableEq

/-- An HTTP response from the health-check endpoint. -/
structure StatusResponse where
  httpStatus : Nat
  body : StatusBody
deriving DecidableEq

/-- The basic `GET` handler of `src/app/api/translate/route.ts`: always
responds 200 with `status: "ok"`, reporting `configured` as the presence of
the API key. -/
def GETtranslateBasic (env : Env) : StatusResponse :=
  ⟨200, ⟨"ok", env.apiKey.isSome,
    if env.apiKey.isSome then "Translation service is ready"
    else "Translation service needs configuration"⟩⟩

/-- `testTranslationAPI` from `src/lib/translation.ts`: one test completion
request; success when a non-empty trimmed response arrives, otherwise a
failure flag with an error message.  The second component counts provider
requests issued. -/
def testTranslationAPI (env : Env) (provider : ProviderOutcome) :
    (Bool × Option String) × Nat :=
  match getOpenAIClient env with
  | .error e =>
      ((false, some (if e.message ≠ "" then e.message else "API test failed")), 0)
  | .ok _ =>
      match provider with
      | .fail _ _ m =>
          ((false, some (if m ≠ "" then m else "API test failed")), 1)
      | .reply content =>
          if jsTrim (content.getD "") ≠ "" then ((true, none), 1)
          else ((false, some "No response from API"), 1)

/-- The extended `GET` handler of `src/app/api/translate/route.ts`: responds
`status: "error"` with `configured: false` when the key is missing or not of
the `sk-` form, otherwise runs the API connection test. -/
def GETtranslateExtended (env : Env) (provider : ProviderOutcome) :
    StatusResponse × Nat :=
  match env.apiKey with
  | none =>
      (⟨200, ⟨"error", false, "OpenAI API key is missing. Please add OPENAI_API_KEY to your environment variables."⟩⟩, 0)
  | some k =>
      if ¬ jsStartsWith k "sk-" then
        (⟨200, ⟨"error", false, "OpenAI API key format is invalid. Please check your API key."⟩⟩, 0)
      else
        match testTranslationAPI env provider with
        | ((true, _), n) =>
            (⟨200, ⟨"ok", true, "Translation service is ready and API key is valid"⟩⟩, n)
        | ((false, err), n) =>
            (⟨500, ⟨"error", false, "API test failed: " ++ err.getD ""⟩⟩, n)

/-- A translation record in the remote object store, with the fields the
adapter reads: the object id, the object type, the `metadata.user_id` value
(empty when absent) and the creation time. -/
structure TranslationRecord where
  id : String
  type : String
  user_id : String
  created_at : Nat
deriving DecidableEq

/-- The records matched by the history query `type: "translations"` with the
optional `metadata.user_id` filter. -/
def translationMatches (store : List TranslationRecord)
    (userId : Option String) : List TranslationRecord :=
  store.filter fun o =>
    o.type == "translations" && (match userId with
      | none => true
      | some u => o.user_id == u)

/-- `cosmic.objects.find` for the history query: the Cosmic REST API rejects
with status 404 when no objects match. -/
def cosmicFindTranslations (store : List TranslationRecord)
    (userId : Option String) : Except Nat (List TranslationRecord) :=
  let m := translationMatches store userId
  if m.isEmpty then .error 404 else .ok m

/-- The descending-creation-time ordering used by the history sort comparator
`dateB - dateA`. -/
def histRel (a b : TranslationRecord) : Prop :=
  b.created_at ≤ a.created_at

instance : DecidableRel histRel := fun a b => Nat.decLe b.created_at a.created_at

instance : IsTotal TranslationRecord histRel :=
  ⟨fun a b => le_total b.created_at a.created_at⟩

instance : IsTrans TranslationRecord histRel :=
  ⟨fun _ _ _ h1 h2 => le_trans h2 h1⟩

/-- `getTranslationHistory` from the Cosmic adapter: find the matching
records, sort them newest first; a 404 from the store becomes the empty
list, any other failure the generic fetch error. -/
def getTranslationHistory (store : List TranslationRecord)
    (userId : Option String) : Except String (List TranslationRecord) :=
  match cosmicFindTranslations store userId with
  | .ok objs => .ok (List.insertionSort histRel objs)
  | .error s =>
      if s = 404 then .ok []
      else .error "Failed to fetch translation history"

/-- JSON body of a history-route response. -/
inductive HistoryBody where
  | failure (error : String)
  | translations (items : List TranslationRecord)
  | deleted
deriving DecidableEq

/-- An HTTP response from the history route. -/
structure HistoryResponse where
  status : Nat
  body : HistoryBody
deriving DecidableEq

/-- The `GET` handler of the history route: wraps `getTranslationHistory`,
with `userId` the already-normalised query parameter (`null` or the empty
string become `none` through the `userId || undefined` coercion). -/
def GEThistory (store : List TranslationRecord) (userId : Option String) :
    HistoryResponse :=
  match getTranslationHistory store userId with
  | .ok l => ⟨200, .translations l⟩
  | .error _ => ⟨500, .failure "Failed to fetch translation history"⟩

/-- `cosmic.objects.deleteOne`: the Cosmic REST API rejects with status 404
when no object carries the given id. -/
def cosmicDeleteOne (store : List TranslationRecord) (id : String) :
    Except Nat Unit :=
  if store.any (fun o => o.id == id) then .ok () else .error 404

/-- `deleteTranslation` from the Cosmic adapter: any failure of the
underlying delete — a missing record included — is rethrown as the generic
delete error; there is no 404 special case here. -/
def deleteTranslation (store : List TranslationRecord) (id : String) :
    Except String Unit :=
  match cosmicDeleteOne store id with
  | .ok _ => .ok ()
  | .error _ => .error "Failed to delete translation"

/-- The `DELETE` handler of the history route: 400 when the `id` query
parameter is absent or empty (falsy), 500 when `deleteTranslation` throws,
otherwise a success body. -/
def DELETEhistory (store : List TranslationRecord) (id : Option String) :
    HistoryResponse :=
  match id with
  | none => ⟨400, .failure "Translation ID is required"⟩
  | some i =>
      if i = "" then ⟨400, .failure "Translation ID is required"⟩
      else
        match deleteTranslation store i with
        | .ok _ => ⟨200, .deleted⟩
        | .error _ => ⟨500, .failure "Failed to delete translation"⟩

/-- The metadata of a language record. -/
structure LanguageMetadata where
  code : String
  native_name : String
  flag_emoji : String
  voice_supported : Bool
  translation_quality : String
deriving DecidableEq

/-- A language record as stored in the CMS and consumed by the client. -/
structure Language where
  id : String
  slug : String
  title : String
  type : String
  created_at : String
  modified_at : String
  metadata : LanguageMetadata
deriving DecidableEq

/-- The records matched by the languages query `type: "languages"`. -/
def languageMatches (store : List Language) : List Language :=
  store.filter fun o => o.type == "languages"

/-- `cosmic.objects.find` for the languages query: 404 when no objects
match. -/
def cosmicFindLanguages (store : List Language) :
    Except Nat (List Language) :=
  let m := languageMatches store
  if m.isEmpty then .error 404 else .ok m

/-- `getLanguages` from the Cosmic adapter: a 404 from the store becomes the
empty list, any other failure the generic fetch error. -/
def getLanguages (store : List Language) : Except String (List Language) :=
  match cosmicFindLanguages store with
  | .ok objs => .ok objs
  | .error s =>
      if s = 404 then .ok []
      else .error "Failed to fetch languages"

/-- JSON body of a languages-route response. -/
inductive LanguagesBody where
  | failure (error : String)
  | languages (items : List Language)
deriving DecidableEq

/-- An HTTP response from the languages route. -/
structure LanguagesResponse where
  status : Nat
  body : LanguagesBody
deriving DecidableEq

/-- The `GET` handler of `src/app/api/languages/route.ts`: wraps
`getLanguages`, with no fallback list of its own. -/
def GETlanguages (store : List Language) : LanguagesResponse :=
  match getLanguages store with
  | .ok l => ⟨200, .languages l⟩
  | .error _ => ⟨500, .failure "Failed to fetch languages"⟩

/-- The hardcoded fallback language list of `src/app/page.tsx`, with `now`
the `new Date().toISOString()` value used for the timestamps. -/
def defaultLanguages (now : String) : List Language :=
  [⟨"1", "english", "English", "languages", now, now, ⟨"en", "English", "🇺🇸", true, "high"⟩⟩,
   ⟨"2", "spanish", "Spanish", "languages", now, now, ⟨"es", "Español", "🇪🇸", true, "high"⟩⟩,
   ⟨"3", "french", "French", "languages", now, now, ⟨"fr", "Français", "🇫🇷", true, "high"⟩⟩,
   ⟨"4", "german", "German", "languages", now, now, ⟨"de", "Deutsch", "🇩🇪", true, "high"⟩⟩,
   ⟨"5", "chinese", "Chinese", "languages", now, now, ⟨"zh", "中文", "🇨🇳", true, "high"⟩⟩,
   ⟨"6", "japanese", "Japanese", "languages", now, now, ⟨"ja", "日本語", "🇯🇵", true, "high"⟩⟩]

/-- The language-loading step of `src/app/page.tsx`: use the fetched list
when non-empty, otherwise the hardcoded fallback list. -/
def pageLoadLanguages (fetched : List Language) (now : String) :
    List Language :=
  if fetched.length > 0 then fetched else defaultLanguages now

/-! ### Helper lemmas -/

theorem string_length_eq_zero {s : String} : s.length = 0 ↔ s = "" := by
  constructor
  · intro h
    cases s with
    | mk l =>
        have hl : l = [] := List.length_eq_zero.mp h
        subst hl
        rfl
  · intro h
    subst h
    rfl

theorem jsTrim_empty : jsTrim "" = "" := rfl

/-! ### Claim theorems -/

/-- C1 counterexample: the single-space text is non-empty, yet with equal
source and target languages `translateText` throws the empty-text validation
error instead of returning the input unchanged. -/
theorem c1_counterexample :
    translateText ⟨some "sk-test"⟩ (.reply none) " " "English" "English"
      = (.error "Text to translate cannot be empty", 0)
    ∧ (" " : String) ≠ "" := ⟨rfl, by decide⟩

/-- C1 (amended): for every text that is non-empty after trimming whitespace
and every non-empty language name L, `translateText text L L` returns the
input unchanged with confidence 1.0, empty alternatives, and no provider
request. -/
theorem c1_same_language_short_circuit (env : Env) (p : ProviderOutcome)
    (text L : String) (ht : jsTrim text ≠ "") (hL : L ≠ "") :
    translateText env p text L L = (.ok ⟨text, L, L, 1, []⟩, 0) := by
  have h1 : ¬ (text = "" ∨ (jsTrim text).length = 0) := by
    rintro (h | h)
    · subst h
      exact ht jsTrim_empty
    · exact ht (string_length_eq_zero.mp h)
  have h2 : ¬ (L = "" ∨ L = "") := by
    rintro (h | h) <;> exact hL h
  have key : translateTextTry env p text L L = (.ok ⟨text, L, L, 1, []⟩, 0) := by
    unfold translateTextTry
    rw [if_neg h1, if_neg h2, if_pos rfl]
  unfold translateText
  rw [key]

/-- C1 witness: the short circuit at a concrete input. -/
theorem c1_witness :
    translateText ⟨some "sk-test"⟩ (.reply none) "Hello" "English" "English"
      = (.ok ⟨"Hello", "English", "English", 1, []⟩, 0) :=
  c1_same_language_short_circuit ⟨some "sk-test"⟩ (.reply none) "Hello" "English"
    (by decide) (by decide)

/-- C8: every successful translation with distinct source and target
languages carries the constant confidence 0.95, whatever the provider
replied. -/
theorem c8_confidence_constant (env : Env) (p : ProviderOutcome)
    (text sl tl : String) (r : TranslationResponse) (n : Nat)
    (hne : sl ≠ tl)
    (h : translateText env p text sl tl = (.ok r, n)) :
    r.confidence = 95/100 := by
  rcases htt : translateTextTry env p text sl tl with ⟨res, m⟩
  unfold translateText at h
  rw [htt] at h
  cases res with
  | error e => simp at h
  | ok r0 =>
      simp only [Prod.mk.injEq, Except.ok.injEq] at h
      obtain ⟨hr, _⟩ := h
      subst hr
      unfold translateTextTry at htt
      repeat' split at htt
      all_goals
        first
          | exact absurd (by assumption) hne
          | (simp only [Prod.mk.injEq, Except.ok.injEq] at htt
             rw [← htt.1])
          | simp at htt

/-- C8 witness: a concrete successful cross-language translation has
confidence 0.95. -/
theorem c8_witness :
    (⟨"Hola", "English", "Spanish", 95/100, []⟩ : TranslationResponse).confidence
      = 95/100 :=
  c8_confidence_constant ⟨some "sk-test"⟩ (.reply (some " Hola ")) "Hello"
    "English" "Spanish" ⟨"Hola", "English", "Spanish", 95/100, []⟩ 1
    (by decide) rfl

/-- C3 counterexample: deleting an identifier no record carries makes
`deleteTranslation` throw the generic delete error rather than succeed. -/
theorem c3_counterexample :
    deleteTranslation [] "missing-id" = .error "Failed to delete translation" := rfl

/-- C3 (amended): when no stored record carries the identifier, the store
delete rejects with 404 and `deleteTranslation` rethrows the generic delete
error — a missing record is not treated as success by the adapter — and the
`DELETE` route then answers 500. -/
theorem c3_delete_missing_throws (store : List TranslationRecord) (id : String)
    (hid : id ≠ "") (h : ∀ o ∈ store, o.id ≠ id) :
    deleteTranslation store id = .error "Failed to delete translation"
    ∧ DELETEhistory store (some id)
        = ⟨500, .failure "Failed to delete translation"⟩ := by
  have hany : store.any (fun o => o.id == id) = false := by
    rw [List.any_eq_false]
    intro o ho
    simpa using h o ho
  have hdel : deleteTranslation store id = .error "Failed to delete translation" := by
    simp [deleteTranslation, cosmicDeleteOne, hany]
  refine ⟨hdel, ?_⟩
  simp [DELETEhistory, hid, hdel]

/-- C3 witness: the amended claim at a concrete missing identifier. -/
theorem c3_witness :
    deleteTranslation [] "abc" = .error "Failed to delete translation"
    ∧ DELETEhistory [] (some "abc")
        = ⟨500, .failure "Failed to delete translation"⟩ :=
  c3_delete_missing_throws [] "abc" (by decide) (by intro o ho; cases ho)

/-- C6 counterexample: with an empty store the languages endpoint returns the
empty list, while the hardcoded fallback list is non-empty — the endpoint
does not return the fallback. -/
theorem c6_counterexample :
    GETlanguages [] = ⟨200, .languages []⟩
    ∧ defaultLanguages "2025-01-01T00:00:00.000Z" ≠ [] :=
  ⟨rfl, by simp [defaultLanguages]⟩

/-- C6 (amended): when the store holds no language records the endpoint
returns an empty `languages` list (the store 404 becomes `[]`, not an
error); the hardcoded fallback list is substituted client-side by the home
page whenever the fetched list is empty. -/
theorem c6_languages_fallback_in_page (store : List Language) (now : String)
    (h : languageMatches store = []) :
    GETlanguages store = ⟨200, .languages []⟩
    ∧ pageLoadLanguages [] now = defaultLanguages now
    ∧ defaultLanguages now ≠ [] := by
  refine ⟨?_, rfl, by simp [defaultLanguages]⟩
  simp [GETlanguages, getLanguages, cosmicFindLanguages, h]

/-- C6 witness: the amended claim at the empty store. -/
theorem c6_witness :
    GETlanguages [] = ⟨200, .languages []⟩
    ∧ pageLoadLanguages [] "t0" = defaultLanguages "t0"
    ∧ defaultLanguages "t0" ≠ [] :=
  c6_languages_fallback_in_page [] "t0" rfl

/-- C9 counterexample: for the empty text the falsy-text guard of the route
answers first, with a different message than the fixed validation message. -/
theorem c9_counterexample :
    POSTtranslate ⟨some "sk-test"⟩ (.reply none) (.reply none)
      ⟨"", "English", "Spanish", false⟩
      = (⟨400, .failure "Text is required and must be a string" none⟩, 0)
    ∧ ("Text is required and must be a string" : String)
        ≠ "Please enter text to translate" := ⟨rfl, by decide⟩

/-- C9 (amended): for every empty or whitespace-only text, validation fails
with the fixed message "Please enter text to translate" and `POST /translate`
answers 400 with no provider request — carrying that fixed message whenever
the text is non-empty, while the empty text is caught earlier by the
falsy-text guard with "Text is required and must be a string". -/
theorem c9_blank_text_rejected (env : Env) (pd pt : ProviderOutcome)
    (text sl tl : String) (ad : Bool) (h : (jsTrim text).length = 0) :
    validateTranslationInput text
        = ⟨false, some "Please enter text to translate"⟩
    ∧ (POSTtranslate env pd pt ⟨text, sl, tl, ad⟩).1.status = 400
    ∧ (POSTtranslate env pd pt ⟨text, sl, tl, ad⟩).2 = 0
    ∧ (text ≠ "" → POSTtranslate env pd pt ⟨text, sl, tl, ad⟩
        = (⟨400, .failure "Please enter text to translate" none⟩, 0)) := by
  have hval : validateTranslationInput text
      = ⟨false, some "Please enter text to translate"⟩ := by
    unfold validateTranslationInput
    rw [if_pos (Or.inr h)]
  by_cases he : text = ""
  · subst he
    exact ⟨hval, rfl, rfl, fun hc => absurd rfl hc⟩
  · have hpost : POSTtranslate env pd pt ⟨text, sl, tl, ad⟩
        = (⟨400, .failure "Please enter text to translate" none⟩, 0) := by
      simp [POSTtranslate, he, hval]
    exact ⟨hval, by rw [hpost], by rw [hpost], fun _ => hpost⟩

/-- C9 witness: the amended claim at the single-space text. -/
theorem c9_witness :
    validateTranslationInput " "
        = ⟨false, some "Please enter text to translate"⟩
    ∧ (POSTtranslate ⟨some "sk-test"⟩ (.reply none) (.reply none)
        ⟨" ", "English", "Spanish", false⟩).1.status = 400
    ∧ (POSTtranslate ⟨some "sk-test"⟩ (.reply none) (.reply none)
        ⟨" ", "English", "Spanish", false⟩).2 = 0
    ∧ (" " ≠ "" → POSTtranslate ⟨some "sk-test"⟩ (.reply none) (.reply none)
        ⟨" ", "English", "Spanish", false⟩
        = (⟨400, .failure "Please enter text to translate" none⟩, 0)) :=
  c9_blank_text_rejected ⟨some "sk-test"⟩ (.reply none) (.reply none)
    " " "English" "Spanish" false (by decide)

/-- C2 counterexample: with the key absent, the basic health-check handler
answers with status field "ok" — configured false — not "error". -/
theorem c2_counterexample :
    GETtranslateBasic ⟨none⟩
      = ⟨200, ⟨"ok", false, "Translation service needs configuration"⟩⟩
    ∧ ("ok" : String) ≠ "error" := ⟨rfl, by decide⟩

/-- C2 (amended): with the credential absent, `GET /translate` reports
`configured: false` (the basic handler with status "ok", the extended handler
with status "error"), and `POST /translate` with otherwise valid input
answers 500 with code `MISSING_API_KEY` and no provider request — a
configuration error rather than a crash. -/
theorem c2_missing_key_degrades (env : Env) (p pd pt : ProviderOutcome)
    (req : TranslateRequest) (henv : env.apiKey = none)
    (ht : req.text ≠ "")
    (hv : (validateTranslationInput req.text).isValid = true)
    (hs : req.sourceLanguage ≠ "") (htl : req.targetLanguage ≠ "") :
    GETtranslateBasic env
      = ⟨200, ⟨"ok", false, "Translation service needs configuration"⟩⟩
    ∧ GETtranslateExtended env p
      = (⟨200, ⟨"error", false, "OpenAI API key is missing. Please add OPENAI_API_KEY to your environment variables."⟩⟩, 0)
    ∧ POSTtranslate env pd pt req
      = (⟨500, .failure "Translation service is not configured. Please set up the OpenAI API key." (some "MISSING_API_KEY")⟩, 0) := by
  refine ⟨by simp [GETtranslateBasic, henv], by simp [GETtranslateExtended, henv], ?_⟩
  have hv2 : ¬ (validateTranslationInput req.text).isValid = false := by
    simp [hv]
  have hlang : ¬ (req.sourceLanguage = "" ∨ req.targetLanguage = "") := by
    rintro (hh | hh)
    exacts [hs hh, htl hh]
  unfold POSTtranslate
  rw [if_neg ht, if_neg hv2, if_neg hlang, if_pos henv]

/-- C2 witness: the amended claim at a concrete valid request with an absent
key. -/
theorem c2_witness :
    GETtranslateBasic ⟨none⟩
      = ⟨200, ⟨"ok", false, "Translation service needs configuration"⟩⟩
    ∧ GETtranslateExtended ⟨none⟩ (.reply none)
      = (⟨200, ⟨"error", false, "OpenAI API key is missing. Please add OPENAI_API_KEY to your environment variables."⟩⟩, 0)
    ∧ POSTtranslate ⟨none⟩ (.reply none) (.reply none)
        ⟨"Hello", "English", "Spanish", false⟩
      = (⟨500, .failure "Translation service is not configured. Please set up the OpenAI API key." (some "MISSING_API_KEY")⟩, 0) :=
  c2_missing_key_degrades ⟨none⟩ (.reply none) (.reply none) (.reply none)
    ⟨"Hello", "English", "Spanish", false⟩ rfl (by decide) (by decide)
    (by decide) (by decide)

/-- When detection comes back `"Unknown"`, the actual source language is the
caller-supplied one. -/
theorem actualSourceLang_fst_of_unknown (env : Env) (pd : ProviderOutcome)
    (req : TranslateRequest)
    (h : (detectLanguage env pd req.text).1 = "Unknown") :
    (actualSourceLang env pd req).1 = req.sourceLanguage := by
  unfold actualSourceLang
  split
  · rw [if_neg]
    rintro ⟨_, h2⟩
    exact h2 h
  · rfl

/-- Without auto-detect the actual source language is the caller-supplied
one and no detection request is issued. -/
theorem actualSourceLang_no_detect (env : Env) (pd : ProviderOutcome)
    (text sl tl : String) :
    actualSourceLang env pd ⟨text, sl, tl, false⟩ = (sl, 0) := by
  simp [actualSourceLang]

/-- The response of the post-guard translation step depends only on the
actual source language, not on the `autoDetect` flag or the detection call
count. -/
theorem POSTwithSource_fst (env : Env) (pt : ProviderOutcome)
    (text sl tl : String) (ad ad2 : Bool) (s : String) (k k2 : Nat) :
    (POSTwithSource env pt ⟨text, sl, tl, ad⟩ (s, k)).1
      = (POSTwithSource env pt ⟨text, sl, tl, ad2⟩ (s, k2)).1 := by
  unfold POSTwithSource
  dsimp only
  rcases htr : translateText env pt text s tl with ⟨res, n⟩
  cases res <;> rfl

/-- C4: every text longer than 5000 units fails validation, and the `POST`
handler answers 400 with zero provider requests, for all language pairs. -/
theorem c4_overlong_text_rejected (env : Env) (pd pt : ProviderOutcome)
    (text sl tl : String) (ad : Bool) (h : text.length > 5000) :
    (validateTranslationInput text).isValid = false
    ∧ (POSTtranslate env pd pt ⟨text, sl, tl, ad⟩).1.status = 400
    ∧ (POSTtranslate env pd pt ⟨text, sl, tl, ad⟩).2 = 0 := by
  have hne : text ≠ "" := by
    intro he
    subst he
    exact absurd h (by decide)
  have hval : (validateTranslationInput text).isValid = false := by
    unfold validateTranslationInput
    by_cases h0 : text = "" ∨ (jsTrim text).length = 0
    · rw [if_pos h0]
    · rw [if_neg h0, if_pos h]
  have hpost : POSTtranslate env pd pt ⟨text, sl, tl, ad⟩
      = (⟨400, .failure ((validateTranslationInput text).error.getD "") none⟩, 0) := by
    unfold POSTtranslate
    dsimp only
    rw [if_neg hne, if_pos hval]
  exact ⟨hval, by rw [hpost], by rw [hpost]⟩

/-- C4 witness: a 5001-character text is rejected with a 400 and no provider
request. -/
theorem c4_witness :
    (validateTranslationInput (String.mk (List.replicate 5001 'a'))).isValid = false
    ∧ (POSTtranslate ⟨some "sk-test"⟩ (.reply none) (.reply none)
        ⟨String.mk (List.replicate 5001 'a'), "English", "Spanish", false⟩).1.status = 400
    ∧ (POSTtranslate ⟨some "sk-test"⟩ (.reply none) (.reply none)
        ⟨String.mk (List.replicate 5001 'a'), "English", "Spanish", false⟩).2 = 0 :=
  c4_overlong_text_rejected ⟨some "sk-test"⟩ (.reply none) (.reply none)
    (String.mk (List.replicate 5001 'a')) "English" "Spanish" false
    (by show 5000 < (List.replicate 5001 'a').length
        rw [List.length_replicate]
        decide)

/-- C7: the history adapter returns exactly the matching records, sorted by
creation time newest first; no matching records yields the empty list rather
than an error; the route wraps the result in a 200 response. -/
theorem c7_history_sorted_desc (store : List TranslationRecord)
    (userId : Option String) :
    ∃ l, getTranslationHistory store userId = .ok l
      ∧ l.Perm (translationMatches store userId)
      ∧ l.Sorted histRel
      ∧ (translationMatches store userId = [] → l = [])
      ∧ GEThistory store userId = ⟨200, .translations l⟩ := by
  rcases hm : translationMatches store userId with _ | ⟨a, as⟩
  · have hget : getTranslationHistory store userId = .ok [] := by
      simp [getTranslationHistory, cosmicFindTranslations, hm]
    exact ⟨[], hget, List.Perm.refl [], List.sorted_nil, fun _ => rfl,
      by simp [GEThistory, hget]⟩
  · have hget : getTranslationHistory store userId
        = .ok (List.insertionSort histRel (a :: as)) := by
      simp [getTranslationHistory, cosmicFindTranslations, hm]
    refine ⟨List.insertionSort histRel (a :: as), hget,
      List.perm_insertionSort histRel (a :: as),
      List.sorted_insertionSort histRel (a :: as), ?_,
      by simp [GEThistory, hget]⟩
    intro hc
    exact absurd hc (List.cons_ne_nil a as)

/-- C7 witness: the property at a concrete two-record store. -/
theorem c7_witness :
    ∃ l, getTranslationHistory
        [⟨"a", "translations", "u1", 5⟩, ⟨"b", "translations", "u1", 9⟩] none
        = .ok l
      ∧ l.Perm (translationMatches
          [⟨"a", "translations", "u1", 5⟩, ⟨"b", "translations", "u1", 9⟩] none)
      ∧ l.Sorted histRel
      ∧ (translationMatches
          [⟨"a", "translations", "u1", 5⟩, ⟨"b", "translations", "u1", 9⟩] none
            = [] → l = [])
      ∧ GEThistory
          [⟨"a", "translations", "u1", 5⟩, ⟨"b", "translations", "u1", 9⟩] none
          = ⟨200, .translations l⟩ :=
  c7_history_sorted_desc
    [⟨"a", "translations", "u1", 5⟩, ⟨"b", "translations", "u1", 9⟩] none

/-- C5: detection failure is never fatal.  `detectLanguage` never throws:
it yields `"Unknown"` for input shorter than 3 trimmed characters, on any
provider error, and when the key is absent; and whenever detection comes
back `"Unknown"`, the `POST` handler silently falls back to the
caller-supplied source language — its response equals the one for the same
request without auto-detect. -/
theorem c5_detection_failure_recovered :
    (∀ env p text, (jsTrim text).length < 3
      → (detectLanguage env p text).1 = "Unknown")
    ∧ (∀ env text st cd m,
        (detectLanguage env (.fail st cd m) text).1 = "Unknown")
    ∧ (∀ env text p, env.apiKey = none
        → (detectLanguage env p text).1 = "Unknown")
    ∧ (∀ env pd pt req, (detectLanguage env pd req.text).1 = "Unknown"
        → (POSTtranslate env pd pt req).1
          = (POSTtranslate env pd pt
              ⟨req.text, req.sourceLanguage, req.targetLanguage, false⟩).1) := by
  refine ⟨?_, ?_, ?_, ?_⟩
  · intro env p text h
    unfold detectLanguage
    rw [if_pos (Or.inr h)]
  · intro env text st cd m
    unfold detectLanguage
    split
    · rfl
    · cases getOpenAIClient env <;> rfl
  · intro env text p henv
    unfold detectLanguage
    split
    · rfl
    · unfold getOpenAIClient
      rw [henv]
  · intro env pd pt req h
    obtain ⟨text, sl, tl, ad⟩ := req
    have ha1 : (actualSourceLang env pd ⟨text, sl, tl, ad⟩).1 = sl :=
      actualSourceLang_fst_of_unknown env pd ⟨text, sl, tl, ad⟩ h
    unfold POSTtranslate
    dsimp only
    by_cases h1 : text = ""
    · simp only [if_pos h1]
    · simp only [if_neg h1]
      by_cases h2 : (validateTranslationInput text).isValid = false
      · simp only [if_pos h2]
      · simp only [if_neg h2]
        by_cases h3 : sl = "" ∨ tl = ""
        · simp only [if_pos h3]
        · simp only [if_neg h3]
          by_cases h4 : env.apiKey = none
          · simp only [if_pos h4]
          · simp only [if_neg h4]
            rw [actualSourceLang_no_detect env pd text sl tl]
            rcases hA : actualSourceLang env pd ⟨text, sl, tl, ad⟩ with ⟨s0, k⟩
            have hs0 : s0 = sl := by
              rw [hA] at ha1
              exact ha1
            subst hs0
            exact POSTwithSource_fst env pt text s0 tl ad false s0 k 0

/-- C5 witness: the recovery behaviour at concrete inputs — a too-short
text, a provider failure, a missing key, and a full request whose detection
call fails. -/
theorem c5_witness :
    (detectLanguage ⟨some "sk-test"⟩ (.reply (some "Spanish")) "hi").1 = "Unknown"
    ∧ (detectLanguage ⟨some "sk-test"⟩ (.fail (some 429) none "rate limited")
        "hello there").1 = "Unknown"
    ∧ (detectLanguage ⟨none⟩ (.reply (some "Spanish")) "hello there").1 = "Unknown"
    ∧ (POSTtranslate ⟨some "sk-test"⟩ (.fail none none "boom")
        (.reply (some "Hola")) ⟨"Hello world again", "English", "Spanish", true⟩).1
      = (POSTtranslate ⟨some "sk-test"⟩ (.fail none none "boom")
        (.reply (some "Hola")) ⟨"Hello world again", "English", "Spanish", false⟩).1 :=
  ⟨c5_detection_failure_recovered.1 ⟨some "sk-test"⟩ (.reply (some "Spanish"))
      "hi" (by decide),
   c5_detection_failure_recovered.2.1 ⟨some "sk-test"⟩ "hello there"
      (some 429) none "rate limited",
   c5_detection_failure_recovered.2.2.1 ⟨none⟩ "hello there"
      (.reply (some "Spanish")) rfl,
   c5_detection_failure_recovered.2.2.2 ⟨some "sk-test"⟩ (.fail none none "boom")
      (.reply (some "Hola")) ⟨"Hello world again", "English", "Spanish", true⟩
      (by decide)⟩

/-- C10: every 200 response of the `POST` handler reports as
`sourceLanguage` the language actually used for the translation (the
auto-detect result when it applied, the caller-supplied language otherwise),
and carries `detectedLanguage` exactly when that language differs from the
caller-supplied one, in which case it equals the reported source language. -/
theorem c10_detected_language_iff (env : Env) (pd pt : ProviderOutcome)
    (req : TranslateRequest) (t s l : String) (c : ℚ) (alts : List String)
    (d : Option String) (n : Nat)
    (h : POSTtranslate env pd pt req = (⟨200, .done t s l c alts d⟩, n)) :
    s = (actualSourceLang env pd req).1
    ∧ (d ≠ none ↔ s ≠ req.sourceLanguage)
    ∧ (∀ x, d = some x → x = s) := by
  unfold POSTtranslate at h
  repeat' split at h
  all_goals try exact absurd h (by simp)
  unfold POSTwithSource at h
  rcases htr : translateText env pt req.text (actualSourceLang env pd req).1
      req.targetLanguage with ⟨res, m⟩
  rw [htr] at h
  cases res with
  | error msg => simp at h
  | ok r =>
      simp only [Prod.mk.injEq, HttpResponse.mk.injEq, TranslateBody.done.injEq,
        true_and] at h
      obtain ⟨⟨-, hs, -, -, -, hd⟩, -⟩ := h
      subst hs
      by_cases hq : (actualSourceLang env pd req).1 ≠ req.sourceLanguage
      · rw [if_pos hq] at hd
        subst hd
        exact ⟨rfl, by simp [hq], fun x hx => (Option.some.injEq _ _ ▸ hx).symm⟩
      · rw [if_neg hq] at hd
        subst hd
        exact ⟨rfl, by simp [hq], fun x hx => absurd hx (by simp)⟩

/-- C10 witness: a concrete request where auto-detection changes the source
language, so `detectedLanguage` is present and equals the reported source. -/
theorem c10_witness :
    ("Spanish" : String) = (actualSourceLang ⟨some "sk-test"⟩
        (.reply (some "Spanish")) ⟨"Hello world!!", "English", "French", true⟩).1
    ∧ ((some "Spanish" : Option String) ≠ none ↔ ("Spanish" : String) ≠ "English")
    ∧ (∀ x, (some "Spanish" : Option String) = some x → x = "Spanish") :=
  c10_detected_language_iff ⟨some "sk-test"⟩ (.reply (some "Spanish"))
    (.reply (some "Bonjour")) ⟨"Hello world!!", "English", "French", true⟩
    "Bonjour" "Spanish" "French" (95/100) [] (some "Spanish") 2 rfl

end LinguaLink
